import Mathlib

/-!
Shallow embedding of the data-contracts management repository.

The embedding covers the schema model (src/schema.py), the Pandera-based
validator (src/validator.py), the Great Expectations integration
(src/ge_integration.py), and the contract manager / registry
(src/data_contracts_management/contract_manager.py with the models of
src/data_contracts_management/models.py).

External collaborators (pandas, Pandera, Great Expectations, the file
system, the clock, regular-expression matching and fresh-uuid generation)
are modelled as explicit parameters or as small definitions that follow
those libraries' documented behaviour; each such definition says so in its
doc comment.
-/

/-- A cell value of a tabular dataset (a pandas cell): null/NaN, a string,
an integer, or a boolean.  Floating-point cells are not needed by any
claim and are not modelled. -/
inductive Value where
  | vnull
  | vstr (s : String)
  | vint (n : Int)
  | vbool (b : Bool)
deriving DecidableEq, Repr

/-- A dynamically-typed parameter (Python `Any`) as it appears in rule
values, expectation kwargs and constraint dictionaries. -/
inductive Kw where
  | kstr (s : String)
  | kint (n : Int)
  | kbool (b : Bool)
  | kcols (cs : List String)
deriving DecidableEq, Repr

/-- An in-memory tabular dataset: named columns, each a list of cell
values (row i of a column is entry i). -/
structure DataFrame where
  cols : List (String × List Value)
deriving DecidableEq, Repr

/-- Column lookup by name (pandas `df[name]` / `name in df.columns`). -/
def DataFrame.getCol (df : DataFrame) (name : String) : Option (List Value) :=
  (df.cols.find? (fun p => p.1 = name)).map (fun p => p.2)

/-- Number of rows (`len(df)`), read off the first column. -/
def DataFrame.nrows (df : DataFrame) : Nat :=
  match df.cols with
  | [] => 0
  | c :: _ => c.2.length

/-- Python `dict` assignment `d[k] = v` on an association list: if the key
is present its value is replaced in place (position preserved), otherwise
the pair is appended at the end.  This is CPython's documented
insertion-order semantics. -/
def dictInsert (d : List (String × α)) (k : String) (v : α) : List (String × α) :=
  match d with
  | [] => [(k, v)]
  | (k0, v0) :: rest => if k0 = k then (k0, v) :: rest else (k0, v0) :: dictInsert rest k v

/-- src/schema.py `DataType`: the closed enumeration of field types. -/
inductive DataType where
  | string
  | integer
  | float
  | boolean
  | date
  | datetime
  | array
  | object
deriving DecidableEq, Repr

/-- src/schema.py `ValidationRule`: a rule tag, its parameter, and an
optional custom message. -/
structure ValidationRule where
  type : String
  value : Kw
  message : Option String := none
deriving DecidableEq, Repr

/-- src/schema.py `SchemaField`. -/
structure SchemaField where
  name : String
  data_type : DataType
  required : Bool := true
  description : Option String := none
  validation_rules : List ValidationRule := []
deriving DecidableEq, Repr

/-- src/schema.py `DataSchema` (timestamps and tags omitted: no claim
mentions them and they never influence compilation or validation). -/
structure DataSchema where
  name : String
  version : String := "1.0.0"
  description : Option String := none
  fields : List SchemaField
deriving DecidableEq, Repr

/-- Construction of a `DataSchema` as src/schema.py defines it: the class
is a pydantic `BaseModel` with no custom validators, so pydantic checks
only the presence and static types of the arguments — conditions the Lean
types already guarantee — and performs no content validation whatsoever
(no emptiness, blank-name or duplicate-name check exists anywhere in the
repository).  Construction therefore always succeeds. -/
def DataSchema.construct (name : String) (fields : List SchemaField) : Except String DataSchema :=
  .ok { name := name, fields := fields }

namespace Pandera

/-- The Pandera `Check` objects that src/validator.py's
`_convert_validation_rules` can produce. -/
inductive Check where
  | str_length_min (v : Kw)
  | str_length_max (v : Kw)
  | greater_than_or_equal_to (v : Kw)
  | less_than_or_equal_to (v : Kw)
  | str_matches (v : Kw)
  | notin (vals : List Value)
deriving DecidableEq, Repr

/-- A Pandera `Column`. -/
structure Column where
  dtype : String
  checks : List Check := []
  nullable : Bool := false
  description : Option String := none
deriving DecidableEq, Repr

/-- A Pandera `DataFrameSchema`: the columns dict (insertion-ordered) plus
name and description. -/
structure DataFrameSchema where
  columns : List (String × Column)
  name : String
  description : Option String := none
deriving DecidableEq, Repr

end Pandera

namespace DataValidator

/-- src/validator.py `DataValidator._convert_data_type`. -/
def convert_data_type : DataType → String
  | .string => "string"
  | .integer => "int64"
  | .float => "float64"
  | .boolean => "bool"
  | .date => "string"
  | .datetime => "string"
  | .array => "object"
  | .object => "object"

/-- src/validator.py `DataValidator._convert_validation_rules`: each rule
is converted by its tag alone (the field's data type is never consulted),
`not_null` becomes `Check.notin([None, ""])`, `unique` produces no check
(only a log warning), and unknown tags are skipped.  The function cannot
fail. -/
def convert_validation_rules : List ValidationRule → List Pandera.Check
  | [] => []
  | r :: rs =>
      (if r.type = "min_length" then [Pandera.Check.str_length_min r.value]
       else if r.type = "max_length" then [Pandera.Check.str_length_max r.value]
       else if r.type = "min_value" then [Pandera.Check.greater_than_or_equal_to r.value]
       else if r.type = "max_value" then [Pandera.Check.less_than_or_equal_to r.value]
       else if r.type = "pattern" then [Pandera.Check.str_matches r.value]
       else if r.type = "not_null" then [Pandera.Check.notin [Value.vnull, Value.vstr ""]]
       else []) ++ convert_validation_rules rs

/-- The Pandera `Column` built for one field inside
`convert_schema_to_pandera`'s loop. -/
def field_column (f : SchemaField) : Pandera.Column :=
  { dtype := convert_data_type f.data_type
    checks := convert_validation_rules f.validation_rules
    nullable := !f.required
    description := f.description }

/-- src/validator.py `DataValidator.convert_schema_to_pandera`: builds the
columns dict field by field (`columns[field.name] = Column(...)`, so a
later field with a duplicate name overwrites the earlier column). -/
def convert_schema_to_pandera (ds : DataSchema) : Pandera.DataFrameSchema :=
  { columns := ds.fields.foldl (fun cols f => dictInsert cols f.name (field_column f)) []
    name := ds.name
    description := ds.description }

/-- Pandera dtype conformance of a single non-null cell, modelled from
pandas dtype semantics: `string` holds strings, `int64` integers, `bool`
booleans, `float64` numbers (integers are acceptable), `object`
anything. -/
def dtype_ok (dtype : String) (v : Value) : Bool :=
  if dtype = "object" then true
  else if dtype = "string" then (match v with | .vstr _ => true | _ => false)
  else if dtype = "int64" then (match v with | .vint _ => true | _ => false)
  else if dtype = "float64" then (match v with | .vint _ => true | _ => false)
  else if dtype = "bool" then (match v with | .vbool _ => true | _ => false)
  else false

/-- Element-wise evaluation of one Pandera check on one cell, modelled
from Pandera's documented check semantics.  `re pat s` is the external
regular-expression oracle (`re.match`), passed in explicitly.  A check
applied to a cell of the wrong runtime type fails. -/
def eval_check (re : String → String → Bool) : Pandera.Check → Value → Bool
  | .str_length_min (.kint n), .vstr s => decide (n ≤ (s.length : Int))
  | .str_length_min _, _ => false
  | .str_length_max (.kint n), .vstr s => decide ((s.length : Int) ≤ n)
  | .str_length_max _, _ => false
  | .greater_than_or_equal_to (.kint n), .vint m => decide (n ≤ m)
  | .greater_than_or_equal_to _, _ => false
  | .less_than_or_equal_to (.kint n), .vint m => decide (m ≤ n)
  | .less_than_or_equal_to _, _ => false
  | .str_matches (.kstr pat), .vstr s => re pat s
  | .str_matches _, _ => false
  | .notin vals, v => !(vals.contains v)

/-- A short label naming a check kind, used in error entries. -/
def check_label : Pandera.Check → String
  | .str_length_min _ => "str_length_min"
  | .str_length_max _ => "str_length_max"
  | .greater_than_or_equal_to _ => "greater_than_or_equal_to"
  | .less_than_or_equal_to _ => "less_than_or_equal_to"
  | .str_matches _ => "str_matches"
  | .notin _ => "notin"

/-- One entry of the `errors` list of a validation report: the offending
column and the failed check. -/
structure SchemaErrorInfo where
  column : String
  check : String
deriving DecidableEq, Repr

/-- The schema errors contributed by one schema column under Pandera's
lazy validation, modelled from Pandera's documented behaviour: a missing
column is one error; otherwise a dtype mismatch, a null in a non-nullable
column, and each failing element-wise check each contribute one error.
Null cells are skipped by dtype and element-wise checks. -/
def column_errors (re : String → String → Bool) (df : DataFrame)
    (p : String × Pandera.Column) : List SchemaErrorInfo :=
  match df.getCol p.1 with
  | none => [⟨p.1, "column_in_dataframe"⟩]
  | some vs =>
      (if vs.any (fun v => !(v == Value.vnull) && !(dtype_ok p.2.dtype v))
       then [⟨p.1, "dtype"⟩] else [])
      ++ (if !p.2.nullable && vs.contains Value.vnull
          then [⟨p.1, "not_nullable"⟩] else [])
      ++ p.2.checks.filterMap (fun ch =>
           if vs.any (fun v => !(v == Value.vnull) && !(eval_check re ch v))
           then some ⟨p.1, check_label ch⟩ else none)

/-- Pandera `schema.validate(df, lazy=True)`: the errors of every column
are collected — no column and no check is skipped because an earlier one
failed. -/
def collect_schema_errors (re : String → String → Bool) (df : DataFrame) :
    List (String × Pandera.Column) → List SchemaErrorInfo
  | [] => []
  | p :: rest => column_errors re df p ++ collect_schema_errors re df rest

/-- pandas `Series.duplicated()` summed: the number of entries that are
equal to some earlier entry of the list (every occurrence after the first
of each value counts). -/
def dup_count (xs : List Value) : Nat := go [] xs
where
  go (seen : List Value) : List Value → Nat
    | [] => 0
    | v :: rest => (if seen.contains v then 1 else 0) + go (v :: seen) rest

/-- One entry of the `warnings` list of a validation report
(src/validator.py `_check_unique_constraints` violation dict). -/
structure UniqueViolation where
  type : String := "unique_violation"
  column : String
  duplicate_count : Nat
  message : String
deriving DecidableEq, Repr

/-- src/validator.py `DataValidator._check_unique_constraints`: every
schema column present in the dataframe is scanned for duplicated values —
whether or not a `unique` rule was attached — and each column with at
least one duplicate yields one violation dict carrying
`len(df[df[col].duplicated()])`. -/
def check_unique_constraints (df : DataFrame) (schema : Pandera.DataFrameSchema) :
    List UniqueViolation :=
  schema.columns.filterMap (fun p =>
    match df.getCol p.1 with
    | none => none
    | some vs =>
        let d := dup_count vs
        let c := p.1
        if d = 0 then none
        else some { column := p.1, duplicate_count := d
                    message := s!"Found {d} duplicate values in column {c}" })

/-- The `validation_result` dict built by src/validator.py
`DataValidator.validate_dataframe`. -/
structure ValidationReport where
  is_valid : Bool
  total_rows : Nat
  valid_rows : Nat
  invalid_rows : Nat
  errors : List SchemaErrorInfo
  warnings : List UniqueViolation
  timestamp : String
  contract_id : Option String
  schema_name : String
deriving DecidableEq, Repr

/-- src/validator.py `DataValidator.validate_dataframe`: runs Pandera
lazy validation; on success `is_valid` is true, `valid_rows` is the row
count and uniqueness violations are appended to `warnings` only; on any
schema error `is_valid` is false, `invalid_rows` is the row count and all
collected errors are reported.  `now` is the external clock
(`datetime.now().isoformat()`). -/
def validate_dataframe (re : String → String → Bool) (df : DataFrame)
    (schema : Pandera.DataFrameSchema) (contract_id : Option String) (now : String) :
    ValidationReport :=
  let errs := collect_schema_errors re df schema.columns
  if errs.isEmpty then
    { is_valid := true, total_rows := df.nrows, valid_rows := df.nrows, invalid_rows := 0
      errors := [], warnings := check_unique_constraints df schema
      timestamp := now, contract_id := contract_id, schema_name := schema.name }
  else
    { is_valid := false, total_rows := df.nrows, valid_rows := 0, invalid_rows := df.nrows
      errors := errs, warnings := []
      timestamp := now, contract_id := contract_id, schema_name := schema.name }

end DataValidator

/-- A Great Expectations `ExpectationConfiguration`: an expectation type
and its kwargs dict. -/
structure Expectation where
  expectation_type : String
  kwargs : List (String × Kw) := []
deriving DecidableEq, Repr

/-- The per-expectation outcome inside a Great Expectations validation
result. -/
structure ExpectationResult where
  expectation_type : String
  success : Bool
  kwargs : List (String × Kw) := []
deriving DecidableEq, Repr

namespace GreatExpectationsValidator

/-- src/ge_integration.py
`GreatExpectationsValidator._convert_validation_rule`: converts one rule
to an expectation dict by its tag alone; `not_null` and unknown tags
return `None`. -/
def convert_validation_rule (column_name : String) (rule : ValidationRule) :
    Option Expectation :=
  if rule.type = "min_length" then
    some ⟨"expect_column_value_lengths_to_be_between",
          [("column", Kw.kstr column_name), ("min_value", rule.value)]⟩
  else if rule.type = "max_length" then
    some ⟨"expect_column_value_lengths_to_be_between",
          [("column", Kw.kstr column_name), ("max_value", rule.value)]⟩
  else if rule.type = "min_value" then
    some ⟨"expect_column_values_to_be_between",
          [("column", Kw.kstr column_name), ("min_value", rule.value)]⟩
  else if rule.type = "max_value" then
    some ⟨"expect_column_values_to_be_between",
          [("column", Kw.kstr column_name), ("max_value", rule.value)]⟩
  else if rule.type = "pattern" then
    some ⟨"expect_column_values_to_match_regex",
          [("column", Kw.kstr column_name), ("regex", rule.value)]⟩
  else if rule.type = "unique" then
    some ⟨"expect_column_values_to_be_unique", [("column", Kw.kstr column_name)]⟩
  else
    none

/-- src/ge_integration.py
`GreatExpectationsValidator.convert_schema_to_expectations`: one
table-level ordered-column-list expectation, then for each field (in
field order) a not-null expectation iff the field is required, a type
expectation iff the data type is string, integer, float or boolean, then
one expectation per convertible rule in attachment order.  Written as the
source writes it: successive appends to the growing list. -/
def convert_schema_to_expectations (ds : DataSchema) : List Expectation :=
  let start : List Expectation :=
    [⟨"expect_table_columns_to_match_ordered_list",
      [("column_list", Kw.kcols (ds.fields.map (fun f => f.name)))]⟩]
  ds.fields.foldl (fun acc f =>
    let acc1 := if f.required
      then acc ++ [⟨"expect_column_values_to_not_be_null", [("column", Kw.kstr f.name)]⟩]
      else acc
    let acc2 :=
      if f.data_type = DataType.string then
        acc1 ++ [⟨"expect_column_values_to_be_of_type",
                  [("column", Kw.kstr f.name), ("type_", Kw.kstr "str")]⟩]
      else if f.data_type = DataType.integer then
        acc1 ++ [⟨"expect_column_values_to_be_of_type",
                  [("column", Kw.kstr f.name), ("type_", Kw.kstr "int")]⟩]
      else if f.data_type = DataType.float then
        acc1 ++ [⟨"expect_column_values_to_be_of_type",
                  [("column", Kw.kstr f.name), ("type_", Kw.kstr "float")]⟩]
      else if f.data_type = DataType.boolean then
        acc1 ++ [⟨"expect_column_values_to_be_of_type",
                  [("column", Kw.kstr f.name), ("type_", Kw.kstr "bool")]⟩]
      else acc1
    f.validation_rules.foldl (fun a r =>
      match convert_validation_rule f.name r with
      | some e => a ++ [e]
      | none => a) acc2) start

/-- The `result_summary` dict built by src/ge_integration.py
`GreatExpectationsValidator.validate_dataframe`. -/
structure ResultSummary where
  success : Bool
  suite_name : String
  batch_id : String
  total_expectations : Nat
  successful_expectations : Nat
  failed_expectations : Nat
  results : List ExpectationResult
deriving DecidableEq, Repr

/-- src/ge_integration.py `GreatExpectationsValidator.validate_dataframe`:
runs the Great Expectations engine over the suite and summarises.  The
engine (`validator.validate()`) is external; per its documented
semantics it evaluates every expectation of the suite on the dataframe
and its overall `success` is the conjunction of the per-expectation
outcomes, which is what the summary copies.  `eval_exp` is the
element-wise expectation semantics, passed in as a parameter. -/
def validate_dataframe (eval_exp : Expectation → DataFrame → Bool)
    (df : DataFrame) (suite : List Expectation) (suite_name batch_id : String) :
    ResultSummary :=
  let results := suite.map (fun e =>
    ({ expectation_type := e.expectation_type, success := eval_exp e df
       kwargs := e.kwargs } : ExpectationResult))
  { success := results.all (fun r => r.success)
    suite_name := suite_name
    batch_id := batch_id
    total_expectations := results.length
    successful_expectations := (results.filter (fun r => r.success)).length
    failed_expectations := (results.filter (fun r => !r.success)).length
    results := results }

end GreatExpectationsValidator

namespace Models

/-- src/data_contracts_management/models.py `ContractStatus`. -/
inductive ContractStatus where
  | draft
  | active
  | deprecated
  | failed
deriving DecidableEq, Repr

/-- src/data_contracts_management/models.py `DataType` (six values: no
array/object here). -/
inductive DataType where
  | string
  | integer
  | float
  | boolean
  | date
  | datetime
deriving DecidableEq, Repr

/-- src/data_contracts_management/models.py `FieldContract`. -/
structure FieldContract where
  name : String
  data_type : Models.DataType
  nullable : Bool := false
  description : Option String := none
  constraints : List (String × Kw) := []
deriving DecidableEq, Repr

/-- src/data_contracts_management/models.py `DataContract`.  Timestamps
are modelled as natural numbers (ticks of the external clock). -/
structure DataContract where
  id : Option String := none
  name : String
  description : Option String := none
  version : String := "1.0.0"
  status : ContractStatus := ContractStatus.draft
  dataset_name : String
  fields : List FieldContract
  created_at : Option Nat := none
  updated_at : Option Nat := none
  owner : Option String := none
  tags : List String := []
deriving DecidableEq, Repr

/-- src/data_contracts_management/models.py `ValidationResult`. -/
structure ValidationResult where
  contract_id : String
  success : Bool
  timestamp : Nat
  details : List (String × Kw)
  errors : List String := []
  warnings : List String := []
deriving DecidableEq, Repr

end Models

namespace ContractManager

/-- The contracts directory as the registry's durable store: an
association list from contract id (the json file's stem) to the stored
record. -/
abbrev Store := List (String × Models.DataContract)

/-- src/data_contracts_management/contract_manager.py
`ContractManager.get_contract`: reads `{id}.json` if it exists. -/
def get_contract (store : Store) (contract_id : String) : Option Models.DataContract :=
  (store.find? (fun p => p.1 = contract_id)).map (fun p => p.2)

/-- src/data_contracts_management/contract_manager.py
`ContractManager.create_contract`: assigns `fresh_uuid` when the given id
is falsy (`None` or the empty string), stamps `created_at`/`updated_at`
with the current time and writes `{id}.json` — overwriting whatever file
of that name already existed, with no duplicate-id check.  Returns the id
used. -/
def create_contract (store : Store) (contract : Models.DataContract)
    (fresh_uuid : String) (now : Nat) : String × Store :=
  let cid := match contract.id with
    | none => fresh_uuid
    | some s => if s = "" then fresh_uuid else s
  let record := { contract with id := some cid
                                created_at := some now
                                updated_at := some now }
  (cid, dictInsert store cid record)

/-- src/data_contracts_management/contract_manager.py
`ContractManager.list_contracts`: reads every stored record in the order
the directory enumeration (`glob("*.json")`) yields it — an order the
file system chooses, not insertion order — and returns them sorted by
`created_at` descending (`None` sorting as `datetime.min`).  Python's
`sorted` is stable, modelled by the stable `List.mergeSort`. -/
def list_contracts (dir_listing : Store) : List Models.DataContract :=
  (dir_listing.map (fun p => p.2)).mergeSort
    (fun a b => decide (b.created_at.getD 0 ≤ a.created_at.getD 0))

/-- src/data_contracts_management/contract_manager.py
`ContractManager.update_contract`: returns false if the id is absent;
otherwise overwrites the submitted payload's id with the id given in the
call, refreshes `updated_at` and rewrites the file. -/
def update_contract (store : Store) (contract_id : String)
    (contract : Models.DataContract) (now : Nat) : Bool × Store :=
  match get_contract store contract_id with
  | none => (false, store)
  | some _ =>
      let record := { contract with id := some contract_id, updated_at := some now }
      (true, dictInsert store contract_id record)

/-- src/data_contracts_management/contract_manager.py
`ContractManager.delete_contract`: returns false when no such file
exists, otherwise removes it and returns true. -/
def delete_contract (store : Store) (contract_id : String) : Bool × Store :=
  match get_contract store contract_id with
  | none => (false, store)
  | some _ => (true, store.filter (fun p => p.1 != contract_id))

/-- The constraint expectations emitted for one field by the `elif`
chain inside `_create_expectations_suite`: `min_value`/`max_value`
survive only on integer/float fields, `allowed_values` always survives,
every other constraint is silently skipped. -/
def constraint_expectations (field : Models.FieldContract) :
    List (String × Kw) → List Expectation
  | [] => []
  | (cname, cval) :: rest =>
      (if cname = "min_value" &&
          (field.data_type == Models.DataType.integer
            || field.data_type == Models.DataType.float) then
        [⟨"expect_column_values_to_be_between",
          [("column", Kw.kstr field.name), ("min_value", cval)]⟩]
       else if cname = "max_value" &&
          (field.data_type == Models.DataType.integer
            || field.data_type == Models.DataType.float) then
        [⟨"expect_column_values_to_be_between",
          [("column", Kw.kstr field.name), ("max_value", cval)]⟩]
       else if cname = "allowed_values" then
        [⟨"expect_column_values_to_be_in_set",
          [("column", Kw.kstr field.name), ("value_set", cval)]⟩]
       else []) ++ constraint_expectations field rest

/-- The suite additions for one field inside
`_create_expectations_suite`'s loop, appended to the accumulator exactly
in source order: column existence, then a type expectation iff the data
type is integer or float, then a not-null expectation iff the field is
not nullable, then the constraint expectations. -/
def add_field_expectations (acc : List Expectation) (field : Models.FieldContract) :
    List Expectation :=
  let acc1 := acc ++ [⟨"expect_column_to_exist", [("column", Kw.kstr field.name)]⟩]
  let acc2 :=
    if field.data_type == Models.DataType.integer then
      acc1 ++ [⟨"expect_column_values_to_be_of_type",
               [("column", Kw.kstr field.name), ("type_", Kw.kstr "int64")]⟩]
    else if field.data_type == Models.DataType.float then
      acc1 ++ [⟨"expect_column_values_to_be_of_type",
               [("column", Kw.kstr field.name), ("type_", Kw.kstr "float64")]⟩]
    else acc1
  let acc3 := if !field.nullable
    then acc2 ++ [⟨"expect_column_values_to_not_be_null",
                  [("column", Kw.kstr field.name)]⟩]
    else acc2
  acc3 ++ constraint_expectations field field.constraints

/-- src/data_contracts_management/contract_manager.py
`ContractManager._create_expectations_suite`: the expectation list built
for a contract, one field after the other. -/
def create_expectations_suite (contract : Models.DataContract) : List Expectation :=
  contract.fields.foldl add_field_expectations []

/-- The outcome the Great Expectations engine hands back to
`validate_data` (`validator.validate()`): the overall flag, the
per-expectation results, and the `to_json_dict()` serialization. -/
structure GESuiteResult where
  success : Bool
  results : List ExpectationResult
  json_details : List (String × Kw)
deriving DecidableEq, Repr

/-- src/data_contracts_management/contract_manager.py
`ContractManager.validate_data`: a missing contract, an unsupported file
extension, a loader failure or an engine failure each abort the run with
a `ValidationResult` carrying `success=false`, empty details and exactly
one top-level error string; no exception escapes (the whole load/validate
body sits in a `try/except`).  The external collaborators — the csv and
json loaders and the engine run — are passed in as `Except` values. -/
def validate_data (store : Store) (contract_id : String) (data_path : String)
    (read_csv : Except String DataFrame) (read_json : Except String DataFrame)
    (run_suite : DataFrame → Except String GESuiteResult) (now : Nat) :
    Models.ValidationResult :=
  match get_contract store contract_id with
  | none =>
      { contract_id := contract_id, success := false, timestamp := now
        details := [], errors := ["Contrato não encontrado"], warnings := [] }
  | some _ =>
      if data_path.endsWith ".csv" || data_path.endsWith ".json" then
        let loaded := if data_path.endsWith ".csv" then read_csv else read_json
        match loaded with
        | .error e =>
            { contract_id := contract_id, success := false, timestamp := now
              details := [], errors := ["Erro na validação: " ++ e], warnings := [] }
        | .ok df =>
            match run_suite df with
            | .error e =>
                { contract_id := contract_id, success := false, timestamp := now
                  details := [], errors := ["Erro na validação: " ++ e], warnings := [] }
            | .ok res =>
                { contract_id := contract_id, success := res.success, timestamp := now
                  details := res.json_details
                  errors := (res.results.filter (fun r => !r.success)).map
                    (fun r => "Falha na expectativa: " ++ r.expectation_type)
                  warnings := [] }
      else
        { contract_id := contract_id, success := false, timestamp := now
          details := [], errors := ["Formato de arquivo não suportado"], warnings := [] }

end ContractManager

/-! Concrete fixtures used by counterexamples and witnesses. -/

/-- The `unique` rule of src/schema.py `COMMON_VALIDATION_RULES`. -/
def unique_rule : ValidationRule :=
  { type := "unique", value := Kw.kbool true, message := some "Field must be unique" }

/-- A required string `email` field carrying the `unique` rule. -/
def email_field : SchemaField :=
  { name := "email", data_type := DataType.string, validation_rules := [unique_rule] }

/-- A schema with a required integer `customer_id` and the unique `email`
field. -/
def users_schema : DataSchema :=
  { name := "users"
    fields := [{ name := "customer_id", data_type := DataType.integer }, email_field] }

/-- A schema holding only the unique `email` field. -/
def email_schema : DataSchema := { name := "emails", fields := [email_field] }

/-- A two-row dataset whose `email` column holds the same value twice. -/
def dup_email_frame : DataFrame :=
  ⟨[("customer_id", [Value.vint 1, Value.vint 2]),
    ("email", [Value.vstr "a@b.com", Value.vstr "a@b.com"])]⟩

/-- A registry contract whose declarative schema is one required string
field named `name`. -/
def name_only_contract : Models.DataContract :=
  { name := "c", dataset_name := "d"
    fields := [{ name := "name", data_type := Models.DataType.string }] }

/-- A registry contract with a string field carrying a numeric
`min_value` constraint (ill-typed per the spec). -/
def min_value_string_contract : Models.DataContract :=
  { name := "c", dataset_name := "d"
    fields := [{ name := "name", data_type := Models.DataType.string
                 constraints := [("min_value", Kw.kint 1)] }] }

/-- A schema whose single integer field carries a `pattern` rule
(ill-typed per the spec). -/
def pattern_int_schema : DataSchema :=
  { name := "ages"
    fields := [{ name := "age", data_type := DataType.integer
                 validation_rules := [{ type := "pattern", value := Kw.kstr "^[0-9]+$" }] }] }

/-- A stored registry record with id `a`, created at tick 10. -/
def record_a : Models.DataContract :=
  { id := some "a", name := "A", dataset_name := "d", fields := [], created_at := some 10 }

/-- A stored registry record with id `b`, created at tick 10 — the same
`created_at` as `record_a`. -/
def record_b : Models.DataContract :=
  { id := some "b", name := "B", dataset_name := "d", fields := [], created_at := some 10 }

/-- A fresh contract submitted to `create_contract` with the explicit id
`a`, which `record_a` already occupies. -/
def clashing_contract : Models.DataContract :=
  { id := some "a", name := "C2", dataset_name := "d", fields := [] }

/-- A fresh contract with no id, used by witnesses. -/
def anonymous_contract : Models.DataContract :=
  { name := "anon", dataset_name := "d", fields := [] }

/-! Helper lemmas shared by several claims. -/

theorem collect_schema_errors_eq_nil (re : String → String → Bool) (df : DataFrame)
    (l : List (String × Pandera.Column)) :
    DataValidator.collect_schema_errors re df l = [] ↔
      ∀ p ∈ l, DataValidator.column_errors re df p = [] := by
  induction l with
  | nil => simp [DataValidator.collect_schema_errors]
  | cons p rest ih => simp [DataValidator.collect_schema_errors, ih]

theorem get_contract_cons (a : String) (b : Models.DataContract)
    (tl : ContractManager.Store) (k : String) :
    ContractManager.get_contract ((a, b) :: tl) k =
      if a = k then some b else ContractManager.get_contract tl k := by
  by_cases h : a = k <;> simp [ContractManager.get_contract, List.find?_cons, h]

theorem get_contract_dictInsert (store : ContractManager.Store) (k k2 : String)
    (v : Models.DataContract) :
    ContractManager.get_contract (dictInsert store k v) k2 =
      if k2 = k then some v else ContractManager.get_contract store k2 := by
  induction store with
  | nil =>
      simp only [dictInsert]
      rw [get_contract_cons]
      by_cases h : k2 = k
      · subst h; simp
      · have h' : ¬(k = k2) := fun hh => h hh.symm
        simp [h, h', ContractManager.get_contract]
  | cons hd tl ih =>
      obtain ⟨a, b⟩ := hd
      simp only [dictInsert]
      by_cases h1 : a = k
      · rw [if_pos h1, get_contract_cons, get_contract_cons]
        by_cases h2 : k2 = k
        · subst h2; simp [h1]
        · have h3 : ¬(a = k2) := fun hh => h2 (by rw [← hh, h1])
          simp [h3, h2]
      · rw [if_neg h1, get_contract_cons]
        by_cases h3 : a = k2
        · have h4 : ¬(k2 = k) := fun hh => h1 (h3.trans hh)
          rw [get_contract_cons]
          simp [h3, h4]
        · rw [get_contract_cons]
          simp [h3, ih]

theorem get_contract_filter_self (store : ContractManager.Store) (cid : String) :
    ContractManager.get_contract (store.filter (fun p => p.1 != cid)) cid = none := by
  induction store with
  | nil => simp [ContractManager.get_contract]
  | cons hd tl ih =>
      obtain ⟨a, b⟩ := hd
      by_cases h : a = cid
      · simpa [List.filter_cons, h] using ih
      · simpa [List.filter_cons, h, get_contract_cons] using ih

theorem foldl_rule_append (n : String) (rules : List ValidationRule)
    (acc : List Expectation) :
    rules.foldl (fun a r =>
        match GreatExpectationsValidator.convert_validation_rule n r with
        | some e => a ++ [e]
        | none => a) acc
      = acc ++ rules.filterMap (GreatExpectationsValidator.convert_validation_rule n) := by
  induction rules generalizing acc with
  | nil => simp
  | cons r rs ih =>
      simp only [List.foldl_cons, List.filterMap_cons]
      cases h : GreatExpectationsValidator.convert_validation_rule n r <;>
        simp [h, ih, List.append_assoc]

theorem foldl_append_of_step (g : List β → α → List β) (h : α → List β)
    (hg : ∀ acc x, g acc x = acc ++ h x) (l : List α) (acc : List β) :
    l.foldl g acc = acc ++ l.flatMap h := by
  induction l generalizing acc with
  | nil => simp
  | cons x xs ih => simp [hg, ih, List.append_assoc]

/-- The per-field check sequence that
`ContractManager._create_expectations_suite` actually emits (stated
separately so the suite builder can be proved equal to it): column
existence, then a type expectation iff the type is integer or float, then
a not-null expectation iff the field is not nullable, then the surviving
constraint expectations in attachment order. -/
def cm_field_checks (field : Models.FieldContract) : List Expectation :=
  [⟨"expect_column_to_exist", [("column", Kw.kstr field.name)]⟩]
  ++ (if field.data_type == Models.DataType.integer then
        [⟨"expect_column_values_to_be_of_type",
          [("column", Kw.kstr field.name), ("type_", Kw.kstr "int64")]⟩]
      else if field.data_type == Models.DataType.float then
        [⟨"expect_column_values_to_be_of_type",
          [("column", Kw.kstr field.name), ("type_", Kw.kstr "float64")]⟩]
      else [])
  ++ (if !field.nullable then
        [⟨"expect_column_values_to_not_be_null", [("column", Kw.kstr field.name)]⟩]
      else [])
  ++ ContractManager.constraint_expectations field field.constraints

/-- The per-field expectation sequence that
`GreatExpectationsValidator.convert_schema_to_expectations` actually
emits after the table-level check: not-null iff required, then a type
expectation iff the type is string, integer, float or boolean, then one
expectation per convertible rule. -/
def ge_field_checks (f : SchemaField) : List Expectation :=
  (if f.required then
    [⟨"expect_column_values_to_not_be_null", [("column", Kw.kstr f.name)]⟩]
   else [])
  ++ (if f.data_type = DataType.string then
        [⟨"expect_column_values_to_be_of_type",
          [("column", Kw.kstr f.name), ("type_", Kw.kstr "str")]⟩]
      else if f.data_type = DataType.integer then
        [⟨"expect_column_values_to_be_of_type",
          [("column", Kw.kstr f.name), ("type_", Kw.kstr "int")]⟩]
      else if f.data_type = DataType.float then
        [⟨"expect_column_values_to_be_of_type",
          [("column", Kw.kstr f.name), ("type_", Kw.kstr "float")]⟩]
      else if f.data_type = DataType.boolean then
        [⟨"expect_column_values_to_be_of_type",
          [("column", Kw.kstr f.name), ("type_", Kw.kstr "bool")]⟩]
      else [])
  ++ f.validation_rules.filterMap (GreatExpectationsValidator.convert_validation_rule f.name)

theorem add_field_expectations_step (acc : List Expectation)
    (field : Models.FieldContract) :
    ContractManager.add_field_expectations acc field = acc ++ cm_field_checks field := by
  simp only [ContractManager.add_field_expectations, cm_field_checks]
  split_ifs <;> simp_all [List.append_assoc]

theorem ge_fold_step (acc : List Expectation) (f : SchemaField) :
    (let acc1 := if f.required
        then acc ++ [⟨"expect_column_values_to_not_be_null", [("column", Kw.kstr f.name)]⟩]
        else acc
     let acc2 :=
       if f.data_type = DataType.string then
         acc1 ++ [⟨"expect_column_values_to_be_of_type",
                   [("column", Kw.kstr f.name), ("type_", Kw.kstr "str")]⟩]
       else if f.data_type = DataType.integer then
         acc1 ++ [⟨"expect_column_values_to_be_of_type",
                   [("column", Kw.kstr f.name), ("type_", Kw.kstr "int")]⟩]
       else if f.data_type = DataType.float then
         acc1 ++ [⟨"expect_column_values_to_be_of_type",
                   [("column", Kw.kstr f.name), ("type_", Kw.kstr "float")]⟩]
       else if f.data_type = DataType.boolean then
         acc1 ++ [⟨"expect_column_values_to_be_of_type",
                   [("column", Kw.kstr f.name), ("type_", Kw.kstr "bool")]⟩]
       else acc1
     f.validation_rules.foldl (fun a r =>
       match GreatExpectationsValidator.convert_validation_rule f.name r with
       | some e => a ++ [e]
       | none => a) acc2) = acc ++ ge_field_checks f := by
  simp only [ge_field_checks, foldl_rule_append]
  split_ifs <;> simp_all [List.append_assoc]

/-! Claim theorems. -/

/-- C1, counterexample.  In `DataValidator.validate_dataframe`
(src/validator.py) a violated uniqueness constraint does NOT make the
overall success flag false: on a dataset whose `email` column holds the
same value twice, validated against the compiled `users_schema` whose
`email` field carries a `unique` rule, the run reports a uniqueness
violation yet `is_valid` stays true. -/
theorem C1_counterexample :
    (DataValidator.validate_dataframe (fun _ _ => true) dup_email_frame
        (DataValidator.convert_schema_to_pandera users_schema) none "t").warnings ≠ []
    ∧ (DataValidator.validate_dataframe (fun _ _ => true) dup_email_frame
        (DataValidator.convert_schema_to_pandera users_schema) none "t").is_valid = true := by
  decide

/-- C1, amended.  Checks never short-circuit and the overall flag is the
conjunction of the per-check outcomes for the checks the compiler
actually emits — which exclude uniqueness in the Pandera path:
`DataValidator.validate_dataframe` reports `is_valid = true` exactly when
every compiled column produces no error, and
`GreatExpectationsValidator.validate_dataframe`'s success flag is the
conjunction of the outcomes of every expectation of the suite. -/
theorem C1_success_is_conjunction :
    (∀ (re : String → String → Bool) (df : DataFrame) (schema : Pandera.DataFrameSchema)
        (cid : Option String) (now : String),
        ((DataValidator.validate_dataframe re df schema cid now).is_valid = true ↔
          ∀ p ∈ schema.columns, DataValidator.column_errors re df p = []))
    ∧ (∀ (eval_exp : Expectation → DataFrame → Bool) (df : DataFrame)
        (suite : List Expectation) (sn b : String),
        (GreatExpectationsValidator.validate_dataframe eval_exp df suite sn b).success =
          suite.all (fun e => eval_exp e df)) := by
  constructor
  · intro re df schema cid now
    rw [← collect_schema_errors_eq_nil re df schema.columns, ← List.isEmpty_iff]
    unfold DataValidator.validate_dataframe
    by_cases h : (DataValidator.collect_schema_errors re df schema.columns).isEmpty <;>
      simp [h]
  · intro eval_exp df suite sn b
    simp only [GreatExpectationsValidator.validate_dataframe]
    induction suite with
    | nil => rfl
    | cons e es ih => simp_all

/-- C2, counterexample.  For a contract whose single field is a required
string, `_create_expectations_suite` emits a column-existence check and a
not-null check but no type check at all, contradicting the claimed
per-field sequence (existence, not-null, then a type check for every
DataType). -/
theorem C2_counterexample :
    ContractManager.create_expectations_suite name_only_contract =
      [⟨"expect_column_to_exist", [("column", Kw.kstr "name")]⟩,
       ⟨"expect_column_values_to_not_be_null", [("column", Kw.kstr "name")]⟩]
    ∧ (ContractManager.create_expectations_suite name_only_contract).filter
        (fun e => e.expectation_type == "expect_column_values_to_be_of_type") = [] := by
  decide

/-- C2, amended.  The compiled sequences are: in
`_create_expectations_suite`, per field in field order, one
column-existence check, then one type check iff the type is integer or
float, then one not-null check iff the field is not nullable, then the
surviving constraint checks in attachment order; in
`convert_schema_to_expectations`, one table-level ordered-column-list
check first, then per field a not-null check iff required, a type check
iff the type is string/integer/float/boolean, then one expectation per
convertible rule in attachment order. -/
theorem C2_emitted_check_sequence :
    (∀ c : Models.DataContract,
        ContractManager.create_expectations_suite c = c.fields.flatMap cm_field_checks)
    ∧ (∀ ds : DataSchema,
        GreatExpectationsValidator.convert_schema_to_expectations ds =
          ⟨"expect_table_columns_to_match_ordered_list",
            [("column_list", Kw.kcols (ds.fields.map (fun f => f.name)))]⟩
          :: ds.fields.flatMap ge_field_checks) := by
  constructor
  · intro c
    unfold ContractManager.create_expectations_suite
    simpa using foldl_append_of_step ContractManager.add_field_expectations
      cm_field_checks add_field_expectations_step c.fields []
  · intro ds
    unfold GreatExpectationsValidator.convert_schema_to_expectations
    rw [foldl_append_of_step _ ge_field_checks (fun acc f => ge_fold_step acc f)]
    simp

/-- C3, counterexample.  Constructing a `DataSchema` with an empty fields
list, or with two fields of the same name, succeeds: src/schema.py
attaches no validator to the class, so no `InvalidSchema`/`SchemaError`
is ever raised (no such exception type exists in the repository). -/
theorem C3_counterexample :
    DataSchema.construct "empty_schema" [] =
      Except.ok { name := "empty_schema", fields := [] }
    ∧ DataSchema.construct "dup"
        [{ name := "x", data_type := DataType.string },
         { name := "x", data_type := DataType.integer }] =
      Except.ok { name := "dup"
                  fields := [{ name := "x", data_type := DataType.string },
                             { name := "x", data_type := DataType.integer }] } :=
  ⟨rfl, rfl⟩

/-- C3, amended.  `DataSchema` construction performs no structural
validation — any fields list (empty, blank names, duplicates) is
accepted — and the constructed schema reaches compilation and validation
unimpeded: compiling an empty-fields schema yields an empty column dict
and validating any dataset against it succeeds. -/
theorem C3_construction_never_fails :
    ∀ (name : String) (fields : List SchemaField),
      DataSchema.construct name fields = Except.ok { name := name, fields := fields }
      ∧ (∀ (re : String → String → Bool) (df : DataFrame) (cid : Option String)
           (now : String),
          (DataValidator.validate_dataframe re df
            (DataValidator.convert_schema_to_pandera { name := name, fields := [] })
            cid now).is_valid = true) := by
  intro name fields
  refine ⟨rfl, ?_⟩
  intro re df cid now
  simp [DataValidator.validate_dataframe, DataValidator.convert_schema_to_pandera,
        DataValidator.collect_schema_errors]

/-- C4, counterexample.  Compiling ill-typed rules raises nothing: the
Pandera rule converter turns a `pattern` rule on an integer field into a
string-match check without complaint, and `_create_expectations_suite`
silently drops a numeric `min_value` constraint on a string field (the
suite holds only the existence and not-null checks).  No
`SchemaCompilationError` exists in the repository. -/
theorem C4_counterexample :
    DataValidator.convert_schema_to_pandera pattern_int_schema =
      { columns := [("age", { dtype := "int64"
                              checks := [Pandera.Check.str_matches (Kw.kstr "^[0-9]+$")]
                              nullable := false, description := none })]
        name := "ages", description := none }
    ∧ ContractManager.create_expectations_suite min_value_string_contract =
      [⟨"expect_column_to_exist", [("column", Kw.kstr "name")]⟩,
       ⟨"expect_column_values_to_not_be_null", [("column", Kw.kstr "name")]⟩] := by
  decide

/-- The `elif` chain of `_create_expectations_suite` on a string-typed
field: numeric constraints never survive, only `allowed_values` does. -/
theorem constraint_expectations_string_in_set
    (field : Models.FieldContract) (h : field.data_type = Models.DataType.string) :
    ∀ (cs : List (String × Kw)) (e : Expectation),
      e ∈ ContractManager.constraint_expectations field cs →
      e.expectation_type = "expect_column_values_to_be_in_set" := by
  intro cs
  induction cs with
  | nil => intro e he; simp [ContractManager.constraint_expectations] at he
  | cons c rest ih =>
      intro e he
      obtain ⟨cname, cval⟩ := c
      simp only [ContractManager.constraint_expectations, h] at he
      rcases List.mem_append.mp he with h1 | h2
      · split_ifs at h1 with ha hb hc
        · exact absurd ha (by simp)
        · exact absurd hb (by simp)
        · rw [List.mem_singleton.mp h1]
        · simp at h1
      · exact ih e h2

/-- C4, amended.  Rule compilation cannot fail and never consults the
field's type in the Pandera path: the checks of a compiled column are a
function of the rule list alone, identical under any change of the
field's data type; and in the registry path an ill-typed numeric
constraint on a string field is silently skipped (only `allowed_values`
constraints survive on string fields), raising nothing. -/
theorem C4_no_compilation_error :
    (∀ (name : String) (dt dt' : DataType) (req : Bool) (desc : Option String)
        (rules : List ValidationRule),
        (DataValidator.field_column
          { name := name, data_type := dt, required := req
            description := desc, validation_rules := rules }).checks =
        (DataValidator.field_column
          { name := name, data_type := dt', required := req
            description := desc, validation_rules := rules }).checks)
    ∧ (∀ (field : Models.FieldContract),
        field.data_type = Models.DataType.string →
        ∀ e ∈ ContractManager.constraint_expectations field field.constraints,
          e.expectation_type = "expect_column_values_to_be_in_set") := by
  constructor
  · intro name dt dt' req desc rules
    rfl
  · intro field h e he
    exact constraint_expectations_string_in_set field h field.constraints e he

/-- C4, witness: the amended theorem applied to the concrete string field
of `min_value_string_contract` extended with an `allowed_values`
constraint. -/
theorem C4_witness :
    (({ name := "name", data_type := Models.DataType.string
        constraints := [("allowed_values", Kw.kcols ["x"])] } : Models.FieldContract).data_type
        = Models.DataType.string)
    ∧ (⟨"expect_column_values_to_be_in_set",
         [("column", Kw.kstr "name"), ("value_set", Kw.kcols ["x"])]⟩ : Expectation) ∈
        ContractManager.constraint_expectations
          { name := "name", data_type := Models.DataType.string
            constraints := [("allowed_values", Kw.kcols ["x"])] }
          [("allowed_values", Kw.kcols ["x"])]
    ∧ (⟨"expect_column_values_to_be_in_set",
         [("column", Kw.kstr "name"), ("value_set", Kw.kcols ["x"])]⟩ : Expectation).expectation_type
        = "expect_column_values_to_be_in_set" :=
  ⟨rfl, by decide,
   C4_no_compilation_error.2
     { name := "name", data_type := Models.DataType.string
       constraints := [("allowed_values", Kw.kcols ["x"])] }
     rfl _ (by decide)⟩

/-- C5, confirmed.  `ContractManager.validate_data` never lets a
structural error escape as an exception (it is a total function into
`ValidationResult`), and on every structural-error path — contract not
found, unsupported file extension, loader failure, engine failure — it
returns `success = false` with empty details and exactly one top-level
error string instead of per-check outcomes. -/
theorem C5_structural_error_single_toplevel :
    ∀ (store : ContractManager.Store) (cid path : String)
      (rc rj : Except String DataFrame)
      (run : DataFrame → Except String ContractManager.GESuiteResult) (now : Nat),
      (ContractManager.get_contract store cid = none
        ∨ (path.endsWith ".csv" = false ∧ path.endsWith ".json" = false)
        ∨ (∃ e, (if path.endsWith ".csv" then rc else rj) = Except.error e)
        ∨ (∃ df e, (if path.endsWith ".csv" then rc else rj) = Except.ok df
              ∧ run df = Except.error e)) →
      (ContractManager.validate_data store cid path rc rj run now).success = false
      ∧ (ContractManager.validate_data store cid path rc rj run now).errors.length = 1
      ∧ (ContractManager.validate_data store cid path rc rj run now).details = [] := by
  intro store cid path rc rj run now h
  unfold ContractManager.validate_data
  cases hget : ContractManager.get_contract store cid with
  | none => exact ⟨rfl, rfl, rfl⟩
  | some c =>
      by_cases hcsv : path.endsWith ".csv" = true
      · rcases h with h | ⟨h1, h2⟩ | ⟨e, he⟩ | ⟨df, e, hok, herr⟩
        · rw [hget] at h; simp at h
        · rw [hcsv] at h1; simp at h1
        · rw [if_pos hcsv] at he; simp [hcsv, he]
        · rw [if_pos hcsv] at hok; simp [hcsv, hok, herr]
      · by_cases hjson : path.endsWith ".json" = true
        · rcases h with h | ⟨h1, h2⟩ | ⟨e, he⟩ | ⟨df, e, hok, herr⟩
          · rw [hget] at h; simp at h
          · rw [hjson] at h2; simp at h2
          · rw [if_neg hcsv] at he; simp [hcsv, hjson, he]
          · rw [if_neg hcsv] at hok; simp [hcsv, hjson, hok, herr]
        · simp [hcsv, hjson]

/-- C5, witness: a lookup of id `x` in the empty registry fails, and the
resulting run aborts with one top-level error. -/
theorem C5_witness :
    ContractManager.get_contract [] "x" = none
    ∧ ((ContractManager.validate_data [] "x" "data.csv" (Except.error "boom")
          (Except.error "boom") (fun _ => Except.error "boom") 0).success = false
       ∧ (ContractManager.validate_data [] "x" "data.csv" (Except.error "boom")
            (Except.error "boom") (fun _ => Except.error "boom") 0).errors.length = 1
       ∧ (ContractManager.validate_data [] "x" "data.csv" (Except.error "boom")
            (Except.error "boom") (fun _ => Except.error "boom") 0).details = []) :=
  ⟨rfl, C5_structural_error_single_toplevel [] "x" "data.csv" (Except.error "boom")
      (Except.error "boom") (fun _ => Except.error "boom") 0 (Or.inl rfl)⟩

/-- C6, counterexample.  With a `unique` rule on `email` and a dataset
holding two identical email values, the run does NOT fail: the Pandera
path records the violation as a warning and `is_valid` stays true, so
there is no failed uniqueness check in the result. -/
theorem C6_counterexample :
    (DataValidator.validate_dataframe (fun _ _ => true) dup_email_frame
        (DataValidator.convert_schema_to_pandera users_schema) none "t").is_valid = true
    ∧ (DataValidator.validate_dataframe (fun _ _ => true) dup_email_frame
        (DataValidator.convert_schema_to_pandera users_schema) none "t").warnings =
      [⟨"unique_violation", "email", 1, "Found 1 duplicate values in column email"⟩] := by
  decide

/-- C6, amended.  With a `unique` rule on `email` and a dataset holding
exactly two identical email values, the result carries exactly one
uniqueness-violation entry for `email` with a duplicate count of 1 —
reported in `warnings` (the count is the number of occurrences beyond
the first), while the overall success flag remains true. -/
theorem C6_duplicate_email_warning :
    ∀ (e : String),
      DataValidator.validate_dataframe (fun _ _ => true)
          ⟨[("email", [Value.vstr e, Value.vstr e])]⟩
          (DataValidator.convert_schema_to_pandera email_schema) none "t"
        = { is_valid := true, total_rows := 2, valid_rows := 2, invalid_rows := 0
            errors := []
            warnings := [{ column := "email", duplicate_count := 1
                           message := "Found 1 duplicate values in column email" }]
            timestamp := "t", contract_id := none, schema_name := "emails" } := by
  intro e
  simp [DataValidator.validate_dataframe, DataValidator.convert_schema_to_pandera,
        email_schema, email_field, unique_rule, DataValidator.field_column,
        DataValidator.convert_validation_rules, DataValidator.convert_data_type,
        dictInsert, DataValidator.collect_schema_errors, DataValidator.column_errors,
        DataFrame.getCol, List.find?, DataValidator.dtype_ok,
        DataValidator.check_unique_constraints, DataValidator.dup_count,
        DataValidator.dup_count.go, DataFrame.nrows, List.contains]
  rfl

/-- C7, counterexample.  Creating a contract whose explicit id `a`
already exists in the store does not fail with any `DuplicateId`: it
silently overwrites the stored record (the function cannot fail — its
result type carries no error case). -/
theorem C7_counterexample :
    ContractManager.create_contract [("a", record_a)] clashing_contract "uuid-1" 5 =
      ("a",
       [("a",
         { clashing_contract with id := some "a", created_at := some 5, updated_at := some 5 })])
    ∧ ContractManager.get_contract
        (ContractManager.create_contract [("a", record_a)] clashing_contract "uuid-1" 5).2
        "a" ≠ some record_a := by
  decide

/-- C7, amended.  Deletion behaves as claimed — deleting a non-existent
id returns false and leaves the store untouched, a successful delete
returns true and removes the record — but creating with an explicit
existing id does not fail with `DuplicateId`: the new record (restamped
with the call's clock) silently replaces whatever was stored under that
id. -/
theorem C7_delete_safe_create_overwrites :
    (∀ (store : ContractManager.Store) (cid : String),
        ContractManager.get_contract store cid = none →
        ContractManager.delete_contract store cid = (false, store))
    ∧ (∀ (store : ContractManager.Store) (cid : String) (c : Models.DataContract),
        ContractManager.get_contract store cid = some c →
        (ContractManager.delete_contract store cid).1 = true
        ∧ ContractManager.get_contract (ContractManager.delete_contract store cid).2 cid
            = none)
    ∧ (∀ (store : ContractManager.Store) (c : Models.DataContract) (s fresh : String)
          (now : Nat),
        c.id = some s → s ≠ "" →
        (ContractManager.create_contract store c fresh now).1 = s
        ∧ ContractManager.get_contract
            (ContractManager.create_contract store c fresh now).2 s =
          some { c with id := some s, created_at := some now, updated_at := some now }) := by
  refine ⟨?_, ?_, ?_⟩
  · intro store cid h
    simp [ContractManager.delete_contract, h]
  · intro store cid c h
    exact ⟨by simp [ContractManager.delete_contract, h],
           by simp [ContractManager.delete_contract, h, get_contract_filter_self]⟩
  · intro store c s fresh now hid hs
    simp [ContractManager.create_contract, hid, hs, get_contract_dictInsert]

/-- C7, witness: the amended theorem applied at the concrete store
holding `record_a`. -/
theorem C7_witness :
    ContractManager.get_contract [("a", record_a)] "b" = none
    ∧ ContractManager.delete_contract [("a", record_a)] "b" = (false, [("a", record_a)]) :=
  ⟨rfl, C7_delete_safe_create_overwrites.1 [("a", record_a)] "b" rfl⟩

/-- C8, counterexample.  `list_contracts` orders ties by the directory
enumeration (glob) order, not by insertion order: for two records with
equal `created_at`, an enumeration that yields `record_b` before
`record_a` produces `[record_b, record_a]` — so for a registry in which
`record_a` was inserted first, ties do not follow insertion order
(`glob` returns files in arbitrary file-system order). -/
theorem C8_counterexample :
    ContractManager.list_contracts [("b", record_b), ("a", record_a)] = [record_b, record_a]
    ∧ record_a.created_at = record_b.created_at
    ∧ record_a ≠ record_b := by
  refine ⟨?_, by decide, by decide⟩
  unfold ContractManager.list_contracts
  rw [List.mergeSort_of_sorted (by decide)]
  rfl

/-- C8, amended.  `list_contracts` returns exactly the stored contracts
(a permutation of the directory enumeration), sorted by `created_at`
descending, with ties preserving the directory-enumeration order (the
stable sort keeps any correctly-ordered pair of the enumeration in
order) — not insertion order, which the store does not record. -/
theorem C8_list_sorted_desc_stable :
    ∀ (dir_listing : ContractManager.Store),
      (ContractManager.list_contracts dir_listing).Perm
          (dir_listing.map (fun p => p.2))
      ∧ (ContractManager.list_contracts dir_listing).Pairwise
          (fun a b => b.created_at.getD 0 ≤ a.created_at.getD 0)
      ∧ (∀ (a b : Models.DataContract),
          List.Sublist [a, b] (dir_listing.map (fun p => p.2)) →
          b.created_at.getD 0 ≤ a.created_at.getD 0 →
          List.Sublist [a, b] (ContractManager.list_contracts dir_listing)) := by
  intro dir_listing
  have htrans : ∀ (x y z : Models.DataContract),
      decide (y.created_at.getD 0 ≤ x.created_at.getD 0) = true →
      decide (z.created_at.getD 0 ≤ y.created_at.getD 0) = true →
      decide (z.created_at.getD 0 ≤ x.created_at.getD 0) = true := by
    intro x y z h1 h2
    simp only [decide_eq_true_eq] at h1 h2 ⊢
    omega
  have htotal : ∀ (x y : Models.DataContract),
      (decide (y.created_at.getD 0 ≤ x.created_at.getD 0) ||
        decide (x.created_at.getD 0 ≤ y.created_at.getD 0)) = true := by
    intro x y
    simp only [Bool.or_eq_true, decide_eq_true_eq]
    omega
  unfold ContractManager.list_contracts
  refine ⟨List.mergeSort_perm _ _, ?_, ?_⟩
  · exact (List.sorted_mergeSort htrans htotal
      (dir_listing.map (fun p => p.2))).imp (fun h => of_decide_eq_true h)
  · intro a b hsub hle
    exact List.pair_sublist_mergeSort htrans htotal (decide_eq_true hle) hsub

/-- C8, witness: the amended theorem applied to a concrete two-record
enumeration whose ties are already correctly ordered. -/
theorem C8_witness :
    List.Sublist [record_a, record_b]
        ([("a", record_a), ("b", record_b)].map (fun p => p.2))
    ∧ record_b.created_at.getD 0 ≤ record_a.created_at.getD 0
    ∧ List.Sublist [record_a, record_b]
        (ContractManager.list_contracts [("a", record_a), ("b", record_b)]) :=
  ⟨List.Sublist.refl _, by decide,
   (C8_list_sorted_desc_stable [("a", record_a), ("b", record_b)]).2.2 record_a record_b
     (List.Sublist.refl _) (by decide)⟩

/-- C9, counterexample.  Two validation runs over the same checks and the
same dataset are not bit-identical: the result embeds the wall-clock
timestamp, so runs at different instants differ. -/
theorem C9_counterexample :
    DataValidator.validate_dataframe (fun _ _ => true) dup_email_frame
        (DataValidator.convert_schema_to_pandera users_schema) none "2024-01-01T00:00:00"
      ≠ DataValidator.validate_dataframe (fun _ _ => true) dup_email_frame
        (DataValidator.convert_schema_to_pandera users_schema) none "2024-01-02T00:00:00" := by
  decide

/-- C9, amended.  Validation is deterministic up to the clock: two runs
with the same checks and dataset agree on every field of the result
except the timestamp, in both the Pandera path and the registry path
(with the same clock value the results are bit-identical). -/
theorem C9_pure_up_to_timestamp :
    (∀ (re : String → String → Bool) (df : DataFrame) (schema : Pandera.DataFrameSchema)
        (cid : Option String) (t1 t2 : String),
        { DataValidator.validate_dataframe re df schema cid t1 with timestamp := "" } =
        { DataValidator.validate_dataframe re df schema cid t2 with timestamp := "" })
    ∧ (∀ (store : ContractManager.Store) (cid path : String)
        (rc rj : Except String DataFrame)
        (run : DataFrame → Except String ContractManager.GESuiteResult) (n1 n2 : Nat),
        { ContractManager.validate_data store cid path rc rj run n1 with timestamp := 0 } =
        { ContractManager.validate_data store cid path rc rj run n2 with timestamp := 0 }) := by
  constructor
  · intro re df schema cid t1 t2
    by_cases h : (DataValidator.collect_schema_errors re df schema.columns).isEmpty <;>
      simp [DataValidator.validate_dataframe, h]
  · intro store cid path rc rj run n1 n2
    unfold ContractManager.validate_data
    cases hget : ContractManager.get_contract store cid with
    | none => rfl
    | some c =>
        by_cases hcsv : path.endsWith ".csv" = true
        · cases hrc : rc with
          | error e => simp [hcsv, hrc]
          | ok df =>
              cases hrun : run df with
              | error e => simp [hcsv, hrc, hrun]
              | ok res => simp [hcsv, hrc, hrun]
        · by_cases hjson : path.endsWith ".json" = true
          · cases hrj : rj with
            | error e => simp [hcsv, hjson, hrj]
            | ok df =>
                cases hrun : run df with
                | error e => simp [hcsv, hjson, hrj, hrun]
                | ok res => simp [hcsv, hjson, hrj, hrun]
          · simp [hcsv, hjson]

/-- C10, confirmed.  The registry's key-consistency invariant: if every
stored record's id equals its key, then after `create_contract` (which
assigns a fresh id when the submitted one is absent and stores the
stamped record under the id it returns) and after `update_contract`
(which overwrites the payload's id with the id given in the call) every
stored record's id still equals its key; moreover the record `create`
stores under the returned id carries exactly that id. -/
theorem C10_registry_key_consistency :
    ∀ (store : ContractManager.Store),
      (∀ (k : String) (r : Models.DataContract),
          ContractManager.get_contract store k = some r → r.id = some k) →
      (∀ (c : Models.DataContract) (fresh : String) (now : Nat),
          (∀ (k : String) (r : Models.DataContract),
              ContractManager.get_contract
                (ContractManager.create_contract store c fresh now).2 k = some r →
              r.id = some k)
          ∧ ContractManager.get_contract (ContractManager.create_contract store c fresh now).2
              (ContractManager.create_contract store c fresh now).1 =
            some { c with id := some (ContractManager.create_contract store c fresh now).1
                          created_at := some now, updated_at := some now })
      ∧ (∀ (cid : String) (c : Models.DataContract) (now : Nat)
            (k : String) (r : Models.DataContract),
          ContractManager.get_contract
            (ContractManager.update_contract store cid c now).2 k = some r →
          r.id = some k) := by
  intro store hinv
  constructor
  · intro c fresh now
    constructor
    · intro k r hk
      rw [show (ContractManager.create_contract store c fresh now).2 =
            dictInsert store (ContractManager.create_contract store c fresh now).1
              { c with id := some (ContractManager.create_contract store c fresh now).1
                       created_at := some now, updated_at := some now } from rfl] at hk
      rw [get_contract_dictInsert] at hk
      by_cases hke : k = (ContractManager.create_contract store c fresh now).1
      · rw [if_pos hke] at hk
        injection hk with hr
        rw [← hr, hke]
      · rw [if_neg hke] at hk
        exact hinv k r hk
    · rw [show (ContractManager.create_contract store c fresh now).2 =
            dictInsert store (ContractManager.create_contract store c fresh now).1
              { c with id := some (ContractManager.create_contract store c fresh now).1
                       created_at := some now, updated_at := some now } from rfl]
      rw [get_contract_dictInsert]
      simp
  · intro cid c now k r hk
    unfold ContractManager.update_contract at hk
    split at hk
    · exact hinv k r hk
    · dsimp only at hk
      rw [get_contract_dictInsert] at hk
      by_cases hke : k = cid
      · rw [if_pos hke] at hk
        injection hk with hr
        rw [← hr, hke]
      · rw [if_neg hke] at hk
        exact hinv k r hk

/-- C10, witness: the invariant theorem applied to the empty store and a
concrete contract without an id; the record created under the returned
id carries that id. -/
theorem C10_witness :
    (∀ (k : String) (r : Models.DataContract),
        ContractManager.get_contract ([] : ContractManager.Store) k = some r →
        r.id = some k)
    ∧ ContractManager.get_contract
        (ContractManager.create_contract [] anonymous_contract "uuid-7" 3).2
        (ContractManager.create_contract [] anonymous_contract "uuid-7" 3).1 =
      some { anonymous_contract with
              id := some (ContractManager.create_contract [] anonymous_contract "uuid-7" 3).1
              created_at := some 3, updated_at := some 3 } :=
  ⟨(fun _ _ h => nomatch h),
   ((C10_registry_key_consistency [] (fun _ _ h => nomatch h)).1
      anonymous_contract "uuid-7" 3).2⟩
